import Mathlib

/-!
Verification development for `optix/sutils/cuda_output_buffer.py` of the
python-optix repository: a shallow embedding of the `CudaOutputBuffer`
residency controller and proofs about its buffer-residency state machine.

Python exceptions are modelled by `Except PyErr`; the object state (the
`__slots__` of the class, every slot initialised to `None` and hence an
`Option` here) is threaded explicitly.  Side effects on external
collaborators (CUDA device selection, allocations, copies, GL buffer
objects) are recorded in instrumentation fields of the same state record,
so that claims about "exactly one reallocation" or "handle identity" are
expressible.  The `Except` encoding drops collaborator effects performed
before a raise; no claim below depends on such a dropped effect.
-/

/-- Python exceptions raised (or raisable) by the embedded code paths.
`invalidFormat` is the failure of the spec-modelled format resolver. -/
inductive PyErr where
  | nameError (missing : String)
  | attributeError (attr : String)
  | assertionError (payload : String)
  | notImplementedError (msg : String)
  | typeError (msg : String)
  | valueError (msg : String)
  | invalidFormat (tag : String)
deriving DecidableEq, Repr

/-- A concrete numpy storage type: a name and an element size in bytes
(`np.dtype.itemsize`). -/
structure Dtype where
  name : String
  itemsize : Nat
deriving DecidableEq, Repr

/-- Modelled from the spec: the format-resolution collaborator
`vtype_to_dtype` lives in `optix/sutils/vecmath.py`, which is not part of
the sources given; per the spec it is `resolve(tag: string) ->
concrete_storage_type`, failing with `InvalidFormat` on an unknown tag.
We model a table of vector pixel types with their byte sizes. -/
def vtype_to_dtype (tag : String) : Option Dtype :=
  if tag = "float2" then some { name := "float2", itemsize := 8 }
  else if tag = "float3" then some { name := "float3", itemsize := 12 }
  else if tag = "float4" then some { name := "float4", itemsize := 16 }
  else if tag = "uchar3" then some { name := "uchar3", itemsize := 3 }
  else if tag = "uchar4" then some { name := "uchar4", itemsize := 4 }
  else none

/-- The argument accepted by the `pixel_format` setter: a string tag (to be
resolved), a concrete storage type, or any other Python value (which fails
the `isinstance` assert). -/
inductive PixelFormatArg where
  | str (tag : String)
  | dtype (d : Dtype)
  | other
deriving DecidableEq, Repr

/-- The `CudaOutputBufferType` enum of the source. -/
inductive CudaOutputBufferType where
  | CUDA_DEVICE
  | GL_INTEROP
  | ZERO_COPY
  | CUDA_P2P
deriving DecidableEq, Repr

/-- The device handle produced by `cp.cuda.Device(value)`. -/
structure DeviceHandle where
  index : Int
deriving DecidableEq, Repr

/-- An allocated n-d buffer (`np.empty` / `cp.empty` result): its shape,
its storage type and its base pointer (a fresh address per allocation). -/
structure NdBuffer where
  width : Nat
  height : Nat
  dtype : Dtype
  ptr : Nat
deriving DecidableEq, Repr

/-- `nbytes` of an allocated buffer: number of elements times itemsize. -/
def NdBuffer.nbytes (b : NdBuffer) : Nat :=
  b.width * b.height * b.dtype.itemsize

/-- Conversion through `np.int32`: wrap into `[-2^31, 2^31)`. -/
def int32 (v : Int) : Int :=
  (v + 2147483648) % 4294967296 - 2147483648

/-- The state of a `CudaOutputBuffer` instance.  The first ten fields are
the `__slots__` of the Python class, each initialised to `None` by
`__init__`.  The remaining fields instrument the external collaborators:
the device made current, fresh-pointer and fresh-GL-buffer counters, and
counts of buffer reallocations, device-to-host copies and host-to-GL
uploads. -/
structure CudaOutputBuffer where
  _pixel_format : Option Dtype := none
  _buffer_type : Option CudaOutputBufferType := none
  _width : Option Int := none
  _height : Option Int := none
  _device_idx : Option Int := none
  _device : Option DeviceHandle := none
  _stream : Option Unit := none
  _host_buffer : Option NdBuffer := none
  _device_buffer : Option NdBuffer := none
  _pbo : Option Nat := none
  currentDevice : Option DeviceHandle := none
  nextPtr : Nat := 1
  nextBufferId : Nat := 1
  reallocCount : Nat := 0
  d2hCopyCount : Nat := 0
  pboUploadCount : Nat := 0
deriving DecidableEq, Repr

namespace CudaOutputBuffer

/-- The repr of an optional `CudaOutputBufferType`, as Python formats it
into the NotImplementedError message strings. -/
def showBufferType : Option CudaOutputBufferType → String
  | none => "None"
  | some CudaOutputBufferType.CUDA_DEVICE => "CudaOutputBufferType.CUDA_DEVICE"
  | some CudaOutputBufferType.GL_INTEROP => "CudaOutputBufferType.GL_INTEROP"
  | some CudaOutputBufferType.ZERO_COPY => "CudaOutputBufferType.ZERO_COPY"
  | some CudaOutputBufferType.CUDA_P2P => "CudaOutputBufferType.CUDA_P2P"

/-- The message of the placeholder error raised on unimplemented
strategies. -/
def notImplMsg (bt : Option CudaOutputBufferType) : String :=
  "Buffer type " ++ showBufferType bt ++ " has not been implemented yet."

/-- `np.empty(shape=shape, dtype=dtype)` / `cp.empty(...)`: shape entries
must be non-`None` integers and non-negative; a `None` dtype defaults to
float64.  The allocation takes a fresh base pointer from the state. -/
def alloc (s : CudaOutputBuffer) (shape : Option Int × Option Int)
    (dtype : Option Dtype) : Except PyErr (NdBuffer × CudaOutputBuffer) :=
  match shape.1, shape.2 with
  | some w, some h =>
    if w < 0 ∨ h < 0 then
      Except.error (PyErr.valueError "negative dimensions are not allowed")
    else
      Except.ok
        ({ width := w.toNat, height := h.toNat,
           dtype := dtype.getD { name := "float64", itemsize := 8 },
           ptr := s.nextPtr },
         { s with nextPtr := s.nextPtr + 1 })
  | _, _ => Except.error (PyErr.typeError "expected a sequence of integers")

/-- `_make_current`: `self._device.use()` — selects the controller device
as the current CUDA device; `AttributeError` when `_device` is `None`. -/
def _make_current (s : CudaOutputBuffer) : Except PyErr CudaOutputBuffer :=
  match s._device with
  | none => Except.error (PyErr.attributeError "use")
  | some d => Except.ok { s with currentDevice := some d }

/-- `_reallocate_buffers`: for `CUDA_DEVICE`, allocate a fresh host buffer
and a fresh device buffer shaped `(width, height)` of `pixel_format`, and
refresh the PBO contents when a PBO exists; for every other buffer type
raise `NotImplementedError`.  The reallocation counter is bumped once per
completed reallocation. -/
def _reallocate_buffers (s : CudaOutputBuffer) : Except PyErr CudaOutputBuffer :=
  let buffer_type := s._buffer_type
  let dtype := s._pixel_format
  let shape := (s._width, s._height)
  if buffer_type = some CudaOutputBufferType.CUDA_DEVICE then
    match alloc s shape dtype with
    | Except.error e => Except.error e
    | Except.ok (hb, s) =>
      let s := { s with _host_buffer := some hb }
      match alloc s shape dtype with
      | Except.error e => Except.error e
      | Except.ok (db, s) =>
        let s := { s with _device_buffer := some db,
                          reallocCount := s.reallocCount + 1 }
        if s._pbo.isSome then
          Except.ok { s with pboUploadCount := s.pboUploadCount + 1 }
        else
          Except.ok s
  else
    Except.error (PyErr.notImplementedError (notImplMsg buffer_type))

/-- `map`: make the device current, lazily reallocate when either buffer is
`None`, and return `self._device_buffer.data.ptr`. -/
def map (s : CudaOutputBuffer) : Except PyErr (Nat × CudaOutputBuffer) :=
  match _make_current s with
  | Except.error e => Except.error e
  | Except.ok s =>
    let step : Except PyErr CudaOutputBuffer :=
      if s._host_buffer = none ∨ s._device_buffer = none then
        _reallocate_buffers s
      else
        Except.ok s
    match step with
    | Except.error e => Except.error e
    | Except.ok s =>
      match s._device_buffer with
      | none => Except.error (PyErr.attributeError "data")
      | some b => Except.ok (b.ptr, s)

/-- `unmap`: makes the device current, then evaluates the bare name
`buffer_type` in `if buffer_type is CudaOutputBufferType.CUDA_DEVICE:`.
That name is never bound in the function body (unlike in `get_pbo` and
`_reallocate_buffers`, which start with `buffer_type = self.buffer_type`),
so the method raises `NameError` before reaching the stream
synchronization. -/
def unmap (s : CudaOutputBuffer) : Except PyErr CudaOutputBuffer :=
  match _make_current s with
  | Except.error e => Except.error e
  | Except.ok _ => Except.error (PyErr.nameError "buffer_type")

/-- `get_host_buffer`: its first statement `if buffer_type is ...` reads
the unbound bare name `buffer_type`, so the method raises `NameError`
unconditionally, before any copy. -/
def get_host_buffer (s : CudaOutputBuffer) :
    Except PyErr (NdBuffer × CudaOutputBuffer) :=
  Except.error (PyErr.nameError "buffer_type")

/-- `copy_device_to_host`: `cp.cuda.runtime.memcpy(host_ptr, device_ptr,
nbytes, memcpyDeviceToHost)`; Python evaluates the host buffer attribute
first, then the device buffer attribute, raising `AttributeError` when the
corresponding slot is `None`.  Byte contents are not modelled; the copy is
recorded in the instrumentation counter. -/
def copy_device_to_host (s : CudaOutputBuffer) : Except PyErr CudaOutputBuffer :=
  match s._host_buffer with
  | none => Except.error (PyErr.attributeError "__array_interface__")
  | some _ =>
    match s._device_buffer with
    | none => Except.error (PyErr.attributeError "data")
    | some _ => Except.ok { s with d2hCopyCount := s.d2hCopyCount + 1 }

/-- `copy_host_to_pbo`: bind the PBO and upload the host buffer via
`glBufferData`. -/
def copy_host_to_pbo (s : CudaOutputBuffer) : Except PyErr CudaOutputBuffer :=
  match s._pbo with
  | none => Except.error (PyErr.typeError "glBindBuffer expected a buffer name")
  | some _ =>
    match s._host_buffer with
    | none => Except.error (PyErr.typeError "glBufferData expected array data")
    | some _ => Except.ok { s with pboUploadCount := s.pboUploadCount + 1 }

/-- `get_pbo`: read `buffer_type` (this method does bind the local), make
the device current, lazily create the PBO handle via `glGenBuffers` when
absent, then for `CUDA_DEVICE` refresh its contents (device-to-host copy
followed by host-to-PBO upload) and return the handle; other buffer types
raise `NotImplementedError` (after the lazy creation). -/
def get_pbo (s : CudaOutputBuffer) : Except PyErr (Nat × CudaOutputBuffer) :=
  let buffer_type := s._buffer_type
  match _make_current s with
  | Except.error e => Except.error e
  | Except.ok s =>
    let s :=
      if s._pbo = none then
        { s with _pbo := some s.nextBufferId,
                 nextBufferId := s.nextBufferId + 1 }
      else s
    if buffer_type = some CudaOutputBufferType.CUDA_DEVICE then
      match copy_device_to_host s with
      | Except.error e => Except.error e
      | Except.ok s =>
        match copy_host_to_pbo s with
        | Except.error e => Except.error e
        | Except.ok s =>
          match s._pbo with
          | none => Except.error (PyErr.attributeError "unreachable")
          | some p => Except.ok (p, s)
    else
      Except.error (PyErr.notImplementedError (notImplMsg buffer_type))

/-- `delete_pbo`: a `None` handle returns immediately; otherwise the
method unbinds the buffer and then calls `glDeleteBuffers`, a name that is
absent from the module import list (`from OpenGL.GL import glGenBuffers,
glBindBuffer, glBufferData, glBindBuffer, GL_ARRAY_BUFFER,
GL_STREAM_DRAW`), so it raises `NameError` before clearing `_pbo`. -/
def delete_pbo (s : CudaOutputBuffer) : Except PyErr CudaOutputBuffer :=
  match s._pbo with
  | none => Except.ok s
  | some _ => Except.error (PyErr.nameError "glDeleteBuffers")

/-- `_get_pixel_format`. -/
def _get_pixel_format (s : CudaOutputBuffer) : Option Dtype :=
  s._pixel_format

/-- `_set_pixel_format`: resolve string tags through the collaborator
(`InvalidFormat` on unknown tags), assert the value is a storage type,
then invalidate both buffers only when the (resolved) value differs from
the current one. -/
def _set_pixel_format (s : CudaOutputBuffer) (value : PixelFormatArg) :
    Except PyErr CudaOutputBuffer :=
  match value with
  | PixelFormatArg.str tag =>
    match vtype_to_dtype tag with
    | none => Except.error (PyErr.invalidFormat tag)
    | some d =>
      Except.ok (if some d = s._pixel_format then s
        else { s with _pixel_format := some d,
                      _host_buffer := none, _device_buffer := none })
  | PixelFormatArg.dtype d =>
    Except.ok (if some d = s._pixel_format then s
      else { s with _pixel_format := some d,
                    _host_buffer := none, _device_buffer := none })
  | PixelFormatArg.other => Except.error (PyErr.assertionError "value")

/-- `_get_buffer_type`. -/
def _get_buffer_type (s : CudaOutputBuffer) : Option CudaOutputBufferType :=
  s._buffer_type

/-- `_set_buffer_type`: invalidate both buffers only on change (the
`isinstance` assert is discharged by typing here). -/
def _set_buffer_type (s : CudaOutputBuffer) (value : CudaOutputBufferType) :
    Except PyErr CudaOutputBuffer :=
  Except.ok (if some value = s._buffer_type then s
    else { s with _buffer_type := some value,
                  _host_buffer := none, _device_buffer := none })

/-- `_get_width`. -/
def _get_width (s : CudaOutputBuffer) : Option Int :=
  s._width

/-- `_set_width`: `assert value >= 1, value`, convert through `np.int32`,
then invalidate both buffers only on change. -/
def _set_width (s : CudaOutputBuffer) (value : Int) :
    Except PyErr CudaOutputBuffer :=
  if 1 ≤ value then
    let v := int32 value
    Except.ok (if some v = s._width then s
      else { s with _width := some v,
                    _host_buffer := none, _device_buffer := none })
  else
    Except.error (PyErr.assertionError (toString value))

/-- `_get_height`. -/
def _get_height (s : CudaOutputBuffer) : Option Int :=
  s._height

/-- `_set_height`: same shape as `_set_width`. -/
def _set_height (s : CudaOutputBuffer) (value : Int) :
    Except PyErr CudaOutputBuffer :=
  if 1 ≤ value then
    let v := int32 value
    Except.ok (if some v = s._height then s
      else { s with _height := some v,
                    _host_buffer := none, _device_buffer := none })
  else
    Except.error (PyErr.assertionError (toString value))

/-- `_get_device_idx`: NOTE — the getter returns `self._device`, the
acquired `cp.cuda.Device` handle, not the stored integer `_device_idx`. -/
def _get_device_idx (s : CudaOutputBuffer) : Option DeviceHandle :=
  s._device

/-- `_set_device_idx`: on `None` the function binds a dead local and then
compares `None >= 0`, a `TypeError`; negative indices fail the assert; on
change the index is stored, the device handle re-acquired, and both
buffers invalidated. -/
def _set_device_idx (s : CudaOutputBuffer) (value : Option Int) :
    Except PyErr CudaOutputBuffer :=
  match value with
  | none =>
    Except.error (PyErr.typeError "unorderable types NoneType and int")
  | some v =>
    if 0 ≤ v then
      Except.ok (if some v = s._device_idx then s
        else { s with _device_idx := some v,
                      _device := some { index := v },
                      _host_buffer := none, _device_buffer := none })
    else
      Except.error (PyErr.assertionError (toString v))

/-- `resize(width, height)`: assign through the two property setters. -/
def resize (s : CudaOutputBuffer) (width height : Int) :
    Except PyErr CudaOutputBuffer :=
  match _set_width s width with
  | Except.error e => Except.error e
  | Except.ok s => _set_height s height

/-- `__init__`: every slot starts as `None`; then the property setters run
in source order, followed by an eager `_reallocate_buffers`. -/
def init (buffer_type : CudaOutputBufferType) (pixel_format : PixelFormatArg)
    (width height : Int) (device_idx : Option Int) :
    Except PyErr CudaOutputBuffer := do
  let s : CudaOutputBuffer := {}
  let s ← _set_device_idx s device_idx
  let s ← _set_pixel_format s pixel_format
  let s ← _set_buffer_type s buffer_type
  let s ← resize s width height
  _reallocate_buffers s

end CudaOutputBuffer

open CudaOutputBuffer

instance {e a : Type} [DecidableEq e] [DecidableEq a] : DecidableEq (Except e a)
  | Except.error x, Except.error y =>
    if h : x = y then isTrue (by rw [h])
    else isFalse (by intro hc; cases hc; exact h rfl)
  | Except.error _, Except.ok _ => isFalse (by intro hc; cases hc)
  | Except.ok _, Except.error _ => isFalse (by intro hc; cases hc)
  | Except.ok x, Except.ok y =>
    if h : x = y then isTrue (by rw [h])
    else isFalse (by intro hc; cases hc; exact h rfl)

/-- `np.int32` conversion is the identity on the representable range. -/
theorem int32_eq_self (v : Int) (h1 : -2147483648 ≤ v) (h2 : v < 2147483648) :
    int32 v = v := by
  unfold int32
  omega

/-- A stored dimension slot holding a positive `int32`-representable
value. -/
def validDim : Option Int → Prop
  | some v => 1 ≤ v ∧ v < 2147483648
  | none => False

instance : (o : Option Int) → Decidable (validDim o)
  | some v => inferInstanceAs (Decidable (1 ≤ v ∧ v < 2147483648))
  | none => inferInstanceAs (Decidable False)

/-- A controller state whose descriptor is fully populated with the
DEVICE-LOCAL strategy, as produced by a successful `__init__`. -/
def Configured (s : CudaOutputBuffer) : Prop :=
  s._pixel_format.isSome = true ∧
  s._buffer_type = some CudaOutputBufferType.CUDA_DEVICE ∧
  s._device.isSome = true ∧
  validDim s._width ∧ validDim s._height

instance (s : CudaOutputBuffer) : Decidable (Configured s) := by
  unfold Configured
  infer_instance

/-- For a DEVICE-LOCAL state with a populated descriptor,
`_reallocate_buffers` succeeds, allocates fresh host and device buffers of
the descriptor shape and type, bumps the reallocation counter once, and
touches no descriptor field and not the PBO handle. -/
theorem reallocate_spec (s : CudaOutputBuffer) (w h : Int) (d : Dtype)
    (hbt : s._buffer_type = some CudaOutputBufferType.CUDA_DEVICE)
    (hw : s._width = some w) (hh : s._height = some h)
    (hf : s._pixel_format = some d) (hw0 : 0 ≤ w) (hh0 : 0 ≤ h) :
    ∃ s', _reallocate_buffers s = Except.ok s' ∧
      s'.reallocCount = s.reallocCount + 1 ∧
      s'._host_buffer = some { width := w.toNat, height := h.toNat, dtype := d, ptr := s.nextPtr } ∧
      s'._device_buffer = some { width := w.toNat, height := h.toNat, dtype := d, ptr := s.nextPtr + 1 } ∧
      s'._pbo = s._pbo ∧ s'._pixel_format = s._pixel_format ∧
      s'._buffer_type = s._buffer_type ∧ s'._width = s._width ∧
      s'._height = s._height ∧ s'._device = s._device ∧
      s'._device_idx = s._device_idx ∧ s'.currentDevice = s.currentDevice := by
  have hneg : ¬(w < 0 ∨ h < 0) := by omega
  by_cases hp : s._pbo.isSome
  · simp [_reallocate_buffers, alloc, hbt, hw, hh, hf, hneg, hp]
  · simp [_reallocate_buffers, alloc, hbt, hw, hh, hf, hneg, hp]

/-- Behaviour of `map` on a DEVICE-LOCAL state with populated descriptor:
it succeeds, selects the device as current, returns the device buffer
base pointer, and reallocates exactly once precisely when a buffer slot
was `None`. -/
theorem map_spec (s : CudaOutputBuffer) (w h : Int) (d : Dtype) (dev : DeviceHandle)
    (hbt : s._buffer_type = some CudaOutputBufferType.CUDA_DEVICE)
    (hw : s._width = some w) (hh : s._height = some h)
    (hf : s._pixel_format = some d) (hdev : s._device = some dev)
    (hw0 : 0 ≤ w) (hh0 : 0 ≤ h)
    (hsized : ∀ b, s._device_buffer = some b →
      b.nbytes = w.toNat * h.toNat * d.itemsize) :
    ∃ p s', CudaOutputBuffer.map s = Except.ok (p, s') ∧
      (∃ b, s'._device_buffer = some b ∧ p = b.ptr ∧
        b.nbytes = w.toNat * h.toNat * d.itemsize) ∧
      s'.currentDevice = some dev ∧
      s'._host_buffer.isSome = true ∧ s'._device_buffer.isSome = true ∧
      ((s._host_buffer = none ∨ s._device_buffer = none) →
        s'.reallocCount = s.reallocCount + 1) ∧
      (¬(s._host_buffer = none ∨ s._device_buffer = none) →
        s'.reallocCount = s.reallocCount ∧
        s'._host_buffer = s._host_buffer ∧
        s'._device_buffer = s._device_buffer) := by
  by_cases hnull : s._host_buffer = none ∨ s._device_buffer = none
  · have hre := reallocate_spec { s with currentDevice := some dev } w h d
      hbt hw hh hf hw0 hh0
    obtain ⟨s', hre, hrc, hhb, hdb, hpbo, hpf, hbt2, hw2, hh2, hdev2, hidx2, hcur⟩ := hre
    have hrc' : s'.reallocCount = s.reallocCount + 1 := hrc
    have hcur' : s'.currentDevice = some dev := hcur
    have hmc : _make_current s = Except.ok { s with currentDevice := some dev } := by
      simp [_make_current, hdev]
    refine ⟨s.nextPtr + 1, s', ?_, ⟨_, hdb, rfl, rfl⟩, hcur', ?_, ?_,
      fun _ => hrc', fun hcon => absurd hnull hcon⟩
    · simp [CudaOutputBuffer.map, hmc, hnull, hre, hdb]
    · rw [hhb]; rfl
    · rw [hdb]; rfl
  · push_neg at hnull
    obtain ⟨hb, hdb⟩ := hnull
    obtain ⟨b, hbv⟩ := Option.ne_none_iff_exists'.mp hdb
    refine ⟨b.ptr, { s with currentDevice := some dev }, ?_⟩
    simp [CudaOutputBuffer.map, _make_current, hdev, hb, hdb, hbv,
      hsized b hbv, Option.isSome_iff_ne_none, hb]

/-- Assigning `pixel_format` its current value leaves the state
untouched. -/
theorem set_pixel_format_same (s : CudaOutputBuffer) (d : Dtype)
    (h : s._pixel_format = some d) :
    _set_pixel_format s (PixelFormatArg.dtype d) = Except.ok s := by
  simp [_set_pixel_format, h]

/-- Assigning `buffer_type` its current value leaves the state
untouched. -/
theorem set_buffer_type_same (s : CudaOutputBuffer) (bt : CudaOutputBufferType)
    (h : s._buffer_type = some bt) :
    _set_buffer_type s bt = Except.ok s := by
  simp [_set_buffer_type, h]

/-- Assigning `width` its current (representable) value leaves the state
untouched. -/
theorem set_width_same (s : CudaOutputBuffer) (w : Int)
    (h : s._width = some w) (h1 : 1 ≤ w) (h2 : w < 2147483648) :
    _set_width s w = Except.ok s := by
  have h3 := int32_eq_self w (by omega) h2
  simp [_set_width, h1, h3, h]

/-- Assigning `height` its current (representable) value leaves the state
untouched. -/
theorem set_height_same (s : CudaOutputBuffer) (v : Int)
    (h : s._height = some v) (h1 : 1 ≤ v) (h2 : v < 2147483648) :
    _set_height s v = Except.ok s := by
  have h3 := int32_eq_self v (by omega) h2
  simp [_set_height, h1, h3, h]

/-- Assigning `device_idx` its current stored index leaves the state
untouched. -/
theorem set_device_idx_same (s : CudaOutputBuffer) (i : Int)
    (h : s._device_idx = some i) (h1 : 0 ≤ i) :
    _set_device_idx s (some i) = Except.ok s := by
  simp [_set_device_idx, h1, h]

/-- One assignment to one of the five descriptor properties. -/
inductive Mutation where
  | setPixelFormat (d : Dtype)
  | setBufferType (v : CudaOutputBufferType)
  | setWidth (v : Int)
  | setHeight (v : Int)
  | setDeviceIdx (v : Int)
deriving DecidableEq, Repr

/-- Run the property setter named by the mutation. -/
def applyMutation (m : Mutation) (s : CudaOutputBuffer) :
    Except PyErr CudaOutputBuffer :=
  match m with
  | Mutation.setPixelFormat d => _set_pixel_format s (PixelFormatArg.dtype d)
  | Mutation.setBufferType v => _set_buffer_type s v
  | Mutation.setWidth v => _set_width s v
  | Mutation.setHeight v => _set_height s v
  | Mutation.setDeviceIdx v => _set_device_idx s (some v)

/-- The mutation assigns a valid value different from the stored one. -/
def IsNewValue (m : Mutation) (s : CudaOutputBuffer) : Prop :=
  match m with
  | Mutation.setPixelFormat d => s._pixel_format ≠ some d
  | Mutation.setBufferType v => s._buffer_type ≠ some v
  | Mutation.setWidth v => 1 ≤ v ∧ v < 2147483648 ∧ s._width ≠ some v
  | Mutation.setHeight v => 1 ≤ v ∧ v < 2147483648 ∧ s._height ≠ some v
  | Mutation.setDeviceIdx v => 0 ≤ v ∧ s._device_idx ≠ some v

instance : (m : Mutation) → (s : CudaOutputBuffer) → Decidable (IsNewValue m s)
  | Mutation.setPixelFormat d, s =>
    inferInstanceAs (Decidable (s._pixel_format ≠ some d))
  | Mutation.setBufferType v, s =>
    inferInstanceAs (Decidable (s._buffer_type ≠ some v))
  | Mutation.setWidth v, s =>
    inferInstanceAs (Decidable (1 ≤ v ∧ v < 2147483648 ∧ s._width ≠ some v))
  | Mutation.setHeight v, s =>
    inferInstanceAs (Decidable (1 ≤ v ∧ v < 2147483648 ∧ s._height ≠ some v))
  | Mutation.setDeviceIdx v, s =>
    inferInstanceAs (Decidable (0 ≤ v ∧ s._device_idx ≠ some v))

/-- No property setter ever touches the PBO handle. -/
theorem mutation_preserves_pbo (m : Mutation) (s s' : CudaOutputBuffer)
    (h : applyMutation m s = Except.ok s') : s'._pbo = s._pbo := by
  cases m with
  | setPixelFormat d =>
    simp only [applyMutation, _set_pixel_format, Except.ok.injEq] at h
    subst h
    split <;> rfl
  | setBufferType v =>
    simp only [applyMutation, _set_buffer_type, Except.ok.injEq] at h
    subst h
    split <;> rfl
  | setWidth v =>
    simp only [applyMutation, _set_width] at h
    split at h
    · simp only [Except.ok.injEq] at h
      subst h
      split <;> rfl
    · exact absurd h (by simp)
  | setHeight v =>
    simp only [applyMutation, _set_height] at h
    split at h
    · simp only [Except.ok.injEq] at h
      subst h
      split <;> rfl
    · exact absurd h (by simp)
  | setDeviceIdx v =>
    simp only [applyMutation, _set_device_idx] at h
    split at h
    · simp only [Except.ok.injEq] at h
      subst h
      split <;> rfl
    · exact absurd h (by simp)

/-- A successful reallocation refreshes the PBO contents but never the
handle identity. -/
theorem reallocate_preserves_pbo (s s' : CudaOutputBuffer)
    (h : _reallocate_buffers s = Except.ok s') : s'._pbo = s._pbo := by
  unfold _reallocate_buffers alloc at h
  by_cases hbt : s._buffer_type = some CudaOutputBufferType.CUDA_DEVICE
  · rcases hsw : s._width with _ | w <;> rcases hsh : s._height with _ | v <;>
      simp only [hbt, hsw, hsh, if_true, reduceIte] at h
    · simp at h
    · simp at h
    · simp at h
    · by_cases hneg : w < 0 ∨ v < 0
      · simp [hneg] at h
      · by_cases hp : s._pbo.isSome <;> simp [hneg, hp] at h <;>
          subst h <;> simp [hp]
  · simp [hbt] at h

/-- `get_pbo` on a DEVICE-LOCAL state with materialized buffers: creates
the handle only when absent (taking the next fresh GL buffer id), returns
the existing handle otherwise, and leaves descriptor and buffers
untouched. -/
theorem get_pbo_spec (s : CudaOutputBuffer) (dev : DeviceHandle)
    (hbt : s._buffer_type = some CudaOutputBufferType.CUDA_DEVICE)
    (hdev : s._device = some dev)
    (hhb : s._host_buffer.isSome = true) (hdb : s._device_buffer.isSome = true) :
    ∃ p s', get_pbo s = Except.ok (p, s') ∧
      s'._pbo = some p ∧
      (s._pbo = none → p = s.nextBufferId) ∧
      (∀ q, s._pbo = some q → p = q) ∧
      s'._buffer_type = s._buffer_type ∧ s'._device = s._device ∧
      s'._host_buffer = s._host_buffer ∧ s'._device_buffer = s._device_buffer ∧
      s'._pixel_format = s._pixel_format ∧ s'._width = s._width ∧
      s'._height = s._height := by
  obtain ⟨hb, hhb'⟩ := Option.isSome_iff_exists.mp hhb
  obtain ⟨db, hdb'⟩ := Option.isSome_iff_exists.mp hdb
  rcases hp : s._pbo with _ | q
  · refine ⟨s.nextBufferId,
      { s with currentDevice := some dev, _pbo := some s.nextBufferId,
               nextBufferId := s.nextBufferId + 1,
               d2hCopyCount := s.d2hCopyCount + 1,
               pboUploadCount := s.pboUploadCount + 1 }, ?_, ?_⟩
    · simp [get_pbo, _make_current, hdev, hbt, hp, copy_device_to_host,
        copy_host_to_pbo, hhb', hdb']
    · simp [hhb', hdb', hbt, hdev]
  · refine ⟨q,
      { s with currentDevice := some dev,
               d2hCopyCount := s.d2hCopyCount + 1,
               pboUploadCount := s.pboUploadCount + 1 }, ?_, ?_⟩
    · simp [get_pbo, _make_current, hdev, hbt, hp, copy_device_to_host,
        copy_host_to_pbo, hhb', hdb']
    · simp [hhb', hdb', hbt, hdev, hp]

/-- A controller constructed DEVICE-LOCAL and then switched to the
ZERO-COPY strategy through the `buffer_type` property. -/
def zero_copy_controller : Except PyErr CudaOutputBuffer :=
  (CudaOutputBuffer.init CudaOutputBufferType.CUDA_DEVICE
      (PixelFormatArg.str "uchar4") 4 3 (some 0)).bind
    (fun s => _set_buffer_type s CudaOutputBufferType.ZERO_COPY)

/-- Claim C1: the claim says that for a DEVICE-LOCAL (`CUDA_DEVICE`)
controller `unmap()` completes normally by synchronizing the stream.  The
code instead raises `NameError` on the unbound bare name `buffer_type`
before ever reaching `self._stream.synchronize()`: here a freshly
constructed DEVICE-LOCAL controller crashes on `unmap`.  The intended
behaviour (shown by the `buffer_type = self.buffer_type` preamble of
`get_pbo` and `_reallocate_buffers`) matches the claim, so this is a code
bug, not a spec error. -/
theorem C1_unmap_raises_nameError :
    (CudaOutputBuffer.init CudaOutputBufferType.CUDA_DEVICE
        (PixelFormatArg.str "uchar4") 4 3 (some 0)).bind unmap
      = Except.error (PyErr.nameError "buffer_type") := by decide

/-- Claim C2: on any configured DEVICE-LOCAL controller state (resolved
format, stored width and height at least 1, acquired device) whose device
buffer, if present, is consistent with the descriptor, `map` succeeds:
it materializes storage (bumping the reallocation counter exactly once
when either buffer slot was `None`), selects the compute device as
current, and returns the base pointer of the device buffer, which spans
at least `width*height*itemsize` bytes. -/
theorem C2_map_materializes_sized_pointer (s : CudaOutputBuffer)
    (w h : Int) (d : Dtype) (dev : DeviceHandle)
    (hbt : s._buffer_type = some CudaOutputBufferType.CUDA_DEVICE)
    (hw : s._width = some w) (hh : s._height = some h)
    (hf : s._pixel_format = some d) (hdev : s._device = some dev)
    (hw1 : 1 ≤ w) (hh1 : 1 ≤ h)
    (hsized : ∀ b, s._device_buffer = some b →
      b.nbytes = w.toNat * h.toNat * d.itemsize) :
    ∃ p s', CudaOutputBuffer.map s = Except.ok (p, s') ∧
      (∃ b, s'._device_buffer = some b ∧ p = b.ptr ∧
        w.toNat * h.toNat * d.itemsize ≤ b.nbytes) ∧
      s'.currentDevice = some dev ∧
      s'._host_buffer.isSome = true ∧ s'._device_buffer.isSome = true ∧
      ((s._host_buffer = none ∨ s._device_buffer = none) →
        s'.reallocCount = s.reallocCount + 1) := by
  obtain ⟨p, s', h1, ⟨b, hb1, hb2, hb3⟩, h3, h4, h5, h6, _⟩ :=
    map_spec s w h d dev hbt hw hh hf hdev (by omega) (by omega) hsized
  exact ⟨p, s', h1, ⟨b, hb1, hb2, le_of_eq hb3.symm⟩, h3, h4, h5, h6⟩

/-- A configured 4x3 `uchar4` DEVICE-LOCAL state whose buffers have been
invalidated, exercising the reallocation path of `map`. -/
def c2_state : CudaOutputBuffer :=
  { _pixel_format := some { name := "uchar4", itemsize := 4 },
    _buffer_type := some CudaOutputBufferType.CUDA_DEVICE,
    _width := some 4, _height := some 3,
    _device_idx := some 0, _device := some { index := 0 },
    _host_buffer := none, _device_buffer := none,
    nextPtr := 3, reallocCount := 1 }

/-- Witness for C2 at the concrete state `c2_state`. -/
theorem C2_map_materializes_witness :
    ∃ p s', CudaOutputBuffer.map c2_state = Except.ok (p, s') ∧
      (∃ b, s'._device_buffer = some b ∧ p = b.ptr ∧
        (4 : Int).toNat * (3 : Int).toNat *
          Dtype.itemsize { name := "uchar4", itemsize := 4 } ≤ b.nbytes) ∧
      s'.currentDevice = some { index := 0 } ∧
      s'._host_buffer.isSome = true ∧ s'._device_buffer.isSome = true ∧
      ((c2_state._host_buffer = none ∨ c2_state._device_buffer = none) →
        s'.reallocCount = c2_state.reallocCount + 1) :=
  C2_map_materializes_sized_pointer c2_state 4 3
    { name := "uchar4", itemsize := 4 } { index := 0 }
    (by decide) (by decide) (by decide) (by decide) (by decide)
    (by decide) (by decide) (fun b hb => by simp [c2_state] at hb)

/-- Claim C3 counterexample: the claim quantifies over every descriptor
field including `buffer_type`.  On the concrete controller constructed
DEVICE-LOCAL and mutated to `ZERO_COPY` (a value different from the
current one), both buffers are indeed nulled, but the next `map()` raises
`NotImplementedError` instead of performing a reallocation of both
buffers, refuting the claim as stated. -/
theorem C3_buffer_type_counterexample :
    (zero_copy_controller.map (fun s => (s._host_buffer, s._device_buffer))
      = Except.ok ((none, none) : Option NdBuffer × Option NdBuffer)) ∧
    zero_copy_controller.bind CudaOutputBuffer.map
      = Except.error (PyErr.notImplementedError
          "Buffer type CudaOutputBufferType.ZERO_COPY has not been implemented yet.") := by
  decide

/-- Claim C3 (amended): on a configured controller, mutating
`pixel_format`, `width`, `height` or `device_idx` to a new valid value
nulls both buffers and the next `map()` performs exactly one reallocation
of both buffers; mutating `buffer_type` to a new value also nulls both
buffers, but the next `map()` then raises the `NotImplementedError`
placeholder, since every strategy other than `CUDA_DEVICE` is
unimplemented. -/
theorem C3_invalidate_then_single_realloc (s : CudaOutputBuffer) (m : Mutation)
    (hc : Configured s) (hnew : IsNewValue m s) :
    ∃ s', applyMutation m s = Except.ok s' ∧
      s'._host_buffer = none ∧ s'._device_buffer = none ∧
      ((∀ v, m ≠ Mutation.setBufferType v) →
        ∃ p s2, CudaOutputBuffer.map s' = Except.ok (p, s2) ∧
          s2.reallocCount = s'.reallocCount + 1 ∧
          s2._host_buffer.isSome = true ∧ s2._device_buffer.isSome = true) ∧
      (∀ v, m = Mutation.setBufferType v →
        CudaOutputBuffer.map s' = Except.error
          (PyErr.notImplementedError (notImplMsg (some v)))) := by
  obtain ⟨hpfS, hbtS, hdevS, hwv, hhv⟩ := hc
  obtain ⟨d0, hd0⟩ := Option.isSome_iff_exists.mp hpfS
  obtain ⟨dev0, hdev0⟩ := Option.isSome_iff_exists.mp hdevS
  rcases hsw : s._width with _ | w0
  · rw [hsw] at hwv; exact hwv.elim
  rcases hsh : s._height with _ | h0
  · rw [hsh] at hhv; exact hhv.elim
  rw [hsw] at hwv
  rw [hsh] at hhv
  obtain ⟨hw1, hw2⟩ := hwv
  obtain ⟨hh1, hh2⟩ := hhv
  cases m with
  | setPixelFormat d =>
    have hcond : ¬(some d = s._pixel_format) := fun hq => hnew hq.symm
    refine ⟨{ s with _pixel_format := some d, _host_buffer := none,
                     _device_buffer := none }, ?_, rfl, rfl, ?_, ?_⟩
    · simp [applyMutation, _set_pixel_format, hcond]
    · intro _
      obtain ⟨p, s2, hm1, _, _, hm4, hm5, hm6, _⟩ :=
        map_spec { s with _pixel_format := some d, _host_buffer := none,
                          _device_buffer := none }
          w0 h0 d dev0 hbtS hsw hsh rfl hdev0 (by omega) (by omega)
          (fun b hb => by simp at hb)
      exact ⟨p, s2, hm1, hm6 (Or.inl rfl), hm4, hm5⟩
    · intro v hv
      simp at hv
  | setBufferType v =>
    have hvne : v ≠ CudaOutputBufferType.CUDA_DEVICE :=
      fun hq => hnew (hq ▸ hbtS)
    have hcond : ¬(some v = s._buffer_type) := fun hq => hnew hq.symm
    refine ⟨{ s with _buffer_type := some v, _host_buffer := none,
                     _device_buffer := none }, ?_, rfl, rfl, ?_, ?_⟩
    · simp [applyMutation, _set_buffer_type, hcond]
    · intro hall
      exact absurd rfl (hall v)
    · intro u hu
      injection hu with huv
      subst huv
      simp [CudaOutputBuffer.map, _make_current, hdev0, _reallocate_buffers, hvne]
  | setWidth v =>
    obtain ⟨hv1, hv2, hvne⟩ := hnew
    have hi : int32 v = v := int32_eq_self v (by omega) hv2
    have hcond : ¬(some v = s._width) := fun hq => hvne hq.symm
    refine ⟨{ s with _width := some v, _host_buffer := none,
                     _device_buffer := none }, ?_, rfl, rfl, ?_, ?_⟩
    · simp [applyMutation, _set_width, hv1, hi, hcond]
    · intro _
      obtain ⟨p, s2, hm1, _, _, hm4, hm5, hm6, _⟩ :=
        map_spec { s with _width := some v, _host_buffer := none,
                          _device_buffer := none }
          v h0 d0 dev0 hbtS rfl hsh hd0 hdev0 (by omega) (by omega)
          (fun b hb => by simp at hb)
      exact ⟨p, s2, hm1, hm6 (Or.inl rfl), hm4, hm5⟩
    · intro u hu
      simp at hu
  | setHeight v =>
    obtain ⟨hv1, hv2, hvne⟩ := hnew
    have hi : int32 v = v := int32_eq_self v (by omega) hv2
    have hcond : ¬(some v = s._height) := fun hq => hvne hq.symm
    refine ⟨{ s with _height := some v, _host_buffer := none,
                     _device_buffer := none }, ?_, rfl, rfl, ?_, ?_⟩
    · simp [applyMutation, _set_height, hv1, hi, hcond]
    · intro _
      obtain ⟨p, s2, hm1, _, _, hm4, hm5, hm6, _⟩ :=
        map_spec { s with _height := some v, _host_buffer := none,
                          _device_buffer := none }
          w0 v d0 dev0 hbtS hsw rfl hd0 hdev0 (by omega) (by omega)
          (fun b hb => by simp at hb)
      exact ⟨p, s2, hm1, hm6 (Or.inl rfl), hm4, hm5⟩
    · intro u hu
      simp at hu
  | setDeviceIdx v =>
    obtain ⟨hv0, hvne⟩ := hnew
    have hcond : ¬(some v = s._device_idx) := fun hq => hvne hq.symm
    refine ⟨{ s with _device_idx := some v, _device := some { index := v },
                     _host_buffer := none,
                     _device_buffer := none }, ?_, rfl, rfl, ?_, ?_⟩
    · simp [applyMutation, _set_device_idx, hv0, hcond]
    · intro _
      obtain ⟨p, s2, hm1, _, _, hm4, hm5, hm6, _⟩ :=
        map_spec { s with _device_idx := some v, _device := some { index := v },
                          _host_buffer := none, _device_buffer := none }
          w0 h0 d0 { index := v } hbtS hsw hsh hd0 rfl (by omega) (by omega)
          (fun b hb => by simp at hb)
      exact ⟨p, s2, hm1, hm6 (Or.inl rfl), hm4, hm5⟩
    · intro u hu
      simp at hu

/-- A configured 4x3 `float4` DEVICE-LOCAL state with materialized
buffers, used as the concrete input of the C3 witness. -/
def c3_state : CudaOutputBuffer :=
  { _pixel_format := some { name := "float4", itemsize := 16 },
    _buffer_type := some CudaOutputBufferType.CUDA_DEVICE,
    _width := some 4, _height := some 3,
    _device_idx := some 0, _device := some { index := 0 },
    _host_buffer := some { width := 4, height := 3,
                           dtype := { name := "float4", itemsize := 16 },
                           ptr := 1 },
    _device_buffer := some { width := 4, height := 3,
                             dtype := { name := "float4", itemsize := 16 },
                             ptr := 2 },
    nextPtr := 3, reallocCount := 1 }

/-- Witness for the amended C3: mutating the width of `c3_state` to 7. -/
theorem C3_invalidate_witness :
    Configured c3_state ∧ IsNewValue (Mutation.setWidth 7) c3_state ∧
    (∃ s', applyMutation (Mutation.setWidth 7) c3_state = Except.ok s' ∧
      s'._host_buffer = none ∧ s'._device_buffer = none ∧
      ((∀ v, Mutation.setWidth 7 ≠ Mutation.setBufferType v) →
        ∃ p s2, CudaOutputBuffer.map s' = Except.ok (p, s2) ∧
          s2.reallocCount = s'.reallocCount + 1 ∧
          s2._host_buffer.isSome = true ∧ s2._device_buffer.isSome = true) ∧
      (∀ v, Mutation.setWidth 7 = Mutation.setBufferType v →
        CudaOutputBuffer.map s' = Except.error
          (PyErr.notImplementedError (notImplMsg (some v))))) :=
  ⟨by decide, by decide,
    C3_invalidate_then_single_realloc c3_state (Mutation.setWidth 7)
      (by decide) (by decide)⟩

/-- Claim C4: assigning any descriptor property its currently stored value
is a no-op — the state (buffers included) is returned unchanged — and a
subsequent `map` on a state with materialized buffers triggers no
reallocation: it only marks the device current and returns the existing
pointer.  The stored width/height of any reachable state lie in the
`int32` range, which the dimension hypotheses reflect. -/
theorem C4_same_value_setters_noop (s : CudaOutputBuffer) :
    (∀ d, s._pixel_format = some d →
      _set_pixel_format s (PixelFormatArg.dtype d) = Except.ok s) ∧
    (∀ bt, s._buffer_type = some bt → _set_buffer_type s bt = Except.ok s) ∧
    (∀ w, s._width = some w → 1 ≤ w → w < 2147483648 →
      _set_width s w = Except.ok s) ∧
    (∀ v, s._height = some v → 1 ≤ v → v < 2147483648 →
      _set_height s v = Except.ok s) ∧
    (∀ i, s._device_idx = some i → 0 ≤ i →
      _set_device_idx s (some i) = Except.ok s) ∧
    (∀ dev, s._device = some dev → s._host_buffer.isSome = true →
      s._device_buffer.isSome = true →
      ∃ p, CudaOutputBuffer.map s =
        Except.ok (p, { s with currentDevice := some dev })) := by
  refine ⟨fun d hd => set_pixel_format_same s d hd,
    fun bt hbt => set_buffer_type_same s bt hbt,
    fun w hw h1 h2 => set_width_same s w hw h1 h2,
    fun v hv h1 h2 => set_height_same s v hv h1 h2,
    fun i hi h0 => set_device_idx_same s i hi h0,
    fun dev hdev hhb hdb => ?_⟩
  obtain ⟨hb, hhb'⟩ := Option.isSome_iff_exists.mp hhb
  obtain ⟨db, hdb'⟩ := Option.isSome_iff_exists.mp hdb
  refine ⟨db.ptr, ?_⟩
  simp [CudaOutputBuffer.map, _make_current, hdev, hhb', hdb']

/-- A configured 4x3 `uchar4` DEVICE-LOCAL state with materialized
buffers, the concrete input of the C4 witness. -/
def c4_state : CudaOutputBuffer :=
  { _pixel_format := some { name := "uchar4", itemsize := 4 },
    _buffer_type := some CudaOutputBufferType.CUDA_DEVICE,
    _width := some 4, _height := some 3,
    _device_idx := some 0, _device := some { index := 0 },
    _host_buffer := some { width := 4, height := 3,
                           dtype := { name := "uchar4", itemsize := 4 },
                           ptr := 1 },
    _device_buffer := some { width := 4, height := 3,
                             dtype := { name := "uchar4", itemsize := 4 },
                             ptr := 2 },
    nextPtr := 3, reallocCount := 1 }

/-- Witness for C4: every same-value assignment on `c4_state` returns the
very same state, and `map` does not reallocate. -/
theorem C4_same_value_witness :
    _set_width c4_state 4 = Except.ok c4_state ∧
    _set_height c4_state 3 = Except.ok c4_state ∧
    _set_pixel_format c4_state
      (PixelFormatArg.dtype { name := "uchar4", itemsize := 4 })
      = Except.ok c4_state ∧
    _set_buffer_type c4_state CudaOutputBufferType.CUDA_DEVICE
      = Except.ok c4_state ∧
    _set_device_idx c4_state (some 0) = Except.ok c4_state ∧
    (∃ p, CudaOutputBuffer.map c4_state =
      Except.ok (p, { c4_state with currentDevice := some { index := 0 } })) :=
  ⟨(C4_same_value_setters_noop c4_state).2.2.1 4 (by decide) (by decide) (by decide),
   (C4_same_value_setters_noop c4_state).2.2.2.1 3 (by decide) (by decide) (by decide),
   (C4_same_value_setters_noop c4_state).1 _ (by decide),
   (C4_same_value_setters_noop c4_state).2.1 _ (by decide),
   (C4_same_value_setters_noop c4_state).2.2.2.2.1 0 (by decide) (by decide),
   (C4_same_value_setters_noop c4_state).2.2.2.2.2 { index := 0 }
     (by decide) (by decide) (by decide)⟩

/-- Claim C5: the display buffer handle is created at most once and its
identity persists: no property setter and no reallocation ever changes
`_pbo`, and two consecutive `get_pbo` calls (on a DEVICE-LOCAL state with
materialized buffers) return the same handle — freshly drawn from the GL
name counter when absent, the stored one when present. -/
theorem C5_display_handle_identity (s : CudaOutputBuffer) :
    (∀ m s', applyMutation m s = Except.ok s' → s'._pbo = s._pbo) ∧
    (∀ s', _reallocate_buffers s = Except.ok s' → s'._pbo = s._pbo) ∧
    (∀ dev, s._buffer_type = some CudaOutputBufferType.CUDA_DEVICE →
      s._device = some dev → s._host_buffer.isSome = true →
      s._device_buffer.isSome = true →
      ∃ p s1 s2, get_pbo s = Except.ok (p, s1) ∧
        get_pbo s1 = Except.ok (p, s2) ∧
        s1._pbo = some p ∧ s2._pbo = some p ∧
        (s._pbo = none → p = s.nextBufferId) ∧
        (∀ q, s._pbo = some q → p = q)) := by
  refine ⟨fun m s' h => mutation_preserves_pbo m s s' h,
    fun s' h => reallocate_preserves_pbo s s' h,
    fun dev hbt hdev hhb hdb => ?_⟩
  obtain ⟨p, s1, h1, hpbo1, hfresh, hsame, hbt1, hdev1, hhb1, hdb1, _, _, _⟩ :=
    get_pbo_spec s dev hbt hdev hhb hdb
  obtain ⟨p2, s2, h2, hpbo2, _, hsame2, _⟩ :=
    get_pbo_spec s1 dev (hbt1.trans hbt) (hdev1.trans hdev)
      (by rw [hhb1]; exact hhb) (by rw [hdb1]; exact hdb)
  have hp2 : p2 = p := hsame2 p hpbo1
  subst hp2
  exact ⟨p2, s1, s2, h1, h2, hpbo1, hpbo2, hfresh, hsame⟩

/-- A configured DEVICE-LOCAL state with materialized buffers and no PBO
yet, the concrete input of the C5 witness. -/
def c5_state : CudaOutputBuffer :=
  { _pixel_format := some { name := "uchar4", itemsize := 4 },
    _buffer_type := some CudaOutputBufferType.CUDA_DEVICE,
    _width := some 4, _height := some 3,
    _device_idx := some 0, _device := some { index := 0 },
    _host_buffer := some { width := 4, height := 3,
                           dtype := { name := "uchar4", itemsize := 4 },
                           ptr := 1 },
    _device_buffer := some { width := 4, height := 3,
                             dtype := { name := "uchar4", itemsize := 4 },
                             ptr := 2 },
    nextPtr := 3, reallocCount := 1 }

/-- Witness for C5 at the concrete state `c5_state`. -/
theorem C5_display_handle_witness :
    c5_state._buffer_type = some CudaOutputBufferType.CUDA_DEVICE ∧
    (∃ p s1 s2, get_pbo c5_state = Except.ok (p, s1) ∧
      get_pbo s1 = Except.ok (p, s2) ∧
      s1._pbo = some p ∧ s2._pbo = some p ∧
      (c5_state._pbo = none → p = c5_state.nextBufferId) ∧
      (∀ q, c5_state._pbo = some q → p = q)) :=
  ⟨by decide, (C5_display_handle_identity c5_state).2.2 { index := 0 }
    (by decide) (by decide) (by decide) (by decide)⟩

/-- Claim C6: the claim says every transfer operation on an unimplemented
strategy raises the deliberate placeholder error and never an
undefined-name crash.  On a controller switched to `ZERO_COPY`, the
reallocation path of `map` and `get_pbo` do raise `NotImplementedError`
naming the strategy, but `unmap` and `get_host_buffer` raise `NameError`
on the unbound `buffer_type` — exactly the generic crash the claim
excludes, so the code contradicts the claimed (and spec-intended)
behaviour on two of the four paths. -/
theorem C6_unimplemented_strategy_paths :
    zero_copy_controller.bind unmap
      = Except.error (PyErr.nameError "buffer_type") ∧
    zero_copy_controller.bind get_host_buffer
      = Except.error (PyErr.nameError "buffer_type") ∧
    zero_copy_controller.bind CudaOutputBuffer.map
      = Except.error (PyErr.notImplementedError
          "Buffer type CudaOutputBufferType.ZERO_COPY has not been implemented yet.") ∧
    zero_copy_controller.bind get_pbo
      = Except.error (PyErr.notImplementedError
          "Buffer type CudaOutputBufferType.ZERO_COPY has not been implemented yet.") := by
  decide

/-- Claim C7: the claim says a DEVICE-LOCAL `get_host_buffer()` performs a
device-to-host copy and returns the host buffer.  The code raises
`NameError` on the unbound bare name `buffer_type` in its first statement,
before any copy, even for a freshly constructed DEVICE-LOCAL controller:
a code bug (the spec design notes flag it and name the DEVICE-LOCAL copy
behaviour as the intent). -/
theorem C7_get_host_buffer_raises_nameError :
    (CudaOutputBuffer.init CudaOutputBufferType.CUDA_DEVICE
        (PixelFormatArg.str "float4") 2 2 (some 0)).bind get_host_buffer
      = Except.error (PyErr.nameError "buffer_type") := by decide

/-- Claim C8: setting `width` (or `height`) below 1 fails synchronously in
the setter with the dimension assertion (the spec taxonomy calls this
`InvalidDimension`), before any allocation — the error is returned with no
successor state, and in the source the assert precedes every effect; an
unresolvable format tag fails with the resolver error the spec taxonomy
calls `InvalidFormat`. -/
theorem C8_setter_validation_errors (s : CudaOutputBuffer) (v : Int)
    (tag : String) (hv : v < 1) (htag : vtype_to_dtype tag = none) :
    _set_width s v = Except.error (PyErr.assertionError (toString v)) ∧
    _set_height s v = Except.error (PyErr.assertionError (toString v)) ∧
    _set_pixel_format s (PixelFormatArg.str tag)
      = Except.error (PyErr.invalidFormat tag) := by
  have h1 : ¬(1 ≤ v) := by omega
  exact ⟨by simp [_set_width, h1], by simp [_set_height, h1],
    by simp [_set_pixel_format, htag]⟩

/-- Witness for C8 at width 0 and the unknown tag "half9". -/
theorem C8_setter_validation_witness :
    (0 : Int) < 1 ∧ vtype_to_dtype "half9" = none ∧
    (_set_width ({} : CudaOutputBuffer) 0
        = Except.error (PyErr.assertionError (toString (0 : Int))) ∧
     _set_height ({} : CudaOutputBuffer) 0
        = Except.error (PyErr.assertionError (toString (0 : Int))) ∧
     _set_pixel_format ({} : CudaOutputBuffer) (PixelFormatArg.str "half9")
        = Except.error (PyErr.invalidFormat "half9")) :=
  ⟨by decide, by decide, C8_setter_validation_errors {} 0 "half9"
    (by decide) (by decide)⟩

/-- Claim C9: the claim says `release_display_buffer` destroys the handle
and nulls it when present, and is a no-op when absent.  The absent half
holds (first conjunct: `delete_pbo` right after construction returns the
state unchanged), but with a handle present the method raises `NameError`,
because `glDeleteBuffers` is missing from the module's OpenGL imports,
and the handle is never cleared: a code bug (the call makes the intent
plain; the name was simply never imported). -/
theorem C9_delete_pbo_crashes_when_present :
    ((CudaOutputBuffer.init CudaOutputBufferType.CUDA_DEVICE
        (PixelFormatArg.str "uchar4") 4 3 (some 0)).bind delete_pbo
      = CudaOutputBuffer.init CudaOutputBufferType.CUDA_DEVICE
          (PixelFormatArg.str "uchar4") 4 3 (some 0)) ∧
    (((CudaOutputBuffer.init CudaOutputBufferType.CUDA_DEVICE
        (PixelFormatArg.str "uchar4") 4 3 (some 0)).bind get_pbo).bind
      (fun r => delete_pbo r.2)
      = Except.error (PyErr.nameError "glDeleteBuffers")) := by
  decide

/-- Claim C10 (implicit, from the code): reading the `device_idx` property
returns `self._device` — the acquired `cp.cuda.Device` handle — and after
setting the property to a fresh index `i` it returns the handle object
wrapping `i` (an `Option DeviceHandle`, not the stored integer, which
lives in `_device_idx`). -/
theorem C10_device_idx_returns_handle (s : CudaOutputBuffer) (i : Int)
    (h0 : 0 ≤ i) (hne : s._device_idx ≠ some i) :
    _get_device_idx s = s._device ∧
    ∃ s', _set_device_idx s (some i) = Except.ok s' ∧
      _get_device_idx s' = some { index := i } ∧
      s'._device_idx = some i := by
  have hc : ¬(some i = s._device_idx) := fun hq => hne hq.symm
  refine ⟨rfl, { s with _device_idx := some i, _device := some { index := i },
                        _host_buffer := none,
                        _device_buffer := none }, ?_, rfl, rfl⟩
  simp [_set_device_idx, h0, hc]

/-- Witness for C10 at the fresh state and index 1. -/
theorem C10_device_idx_witness :
    (0 : Int) ≤ 1 ∧ ({} : CudaOutputBuffer)._device_idx ≠ some 1 ∧
    (_get_device_idx ({} : CudaOutputBuffer) = ({} : CudaOutputBuffer)._device ∧
     ∃ s', _set_device_idx ({} : CudaOutputBuffer) (some 1) = Except.ok s' ∧
       _get_device_idx s' = some { index := 1 } ∧ s'._device_idx = some 1) :=
  ⟨by decide, by decide, C10_device_idx_returns_handle {} 1 (by decide) (by decide)⟩
